import Mathlib

/-!
# Verification of the github-contributions-tui core

Shallow embedding of the terminal GitHub-contributions viewer:

* the date-to-grid bucketing loop of `fetchData` (src/unnamed/part_000,
  lines 236-258: the revision with `numMonths = 13`, `numDays = 32`, the
  `monthIndex` formula and the column-0 year-month label), operating on the
  already-decoded list of `{date, count}` samples;
* the `Update` message handler of the Bubble Tea `model` (identical in every
  revision of the source);
* the per-cell rendering decision of `View` (data-cell branch);
* the legacy 12x31 revision's index arithmetic (src/main.go, lines 189-191).

Network transport, JSON decoding and terminal styling are external
collaborators and are not modelled; the builder consumes the decoded sample
list, exactly as the source loop does.
-/

namespace GhContrib

/-- A parsed calendar date, as produced by Go's
`time.Parse("2006-01-02", ...)` on a sample's date string.
Fields mirror `Year()`, `Month()`, `Day()` (Go `int`s). -/
structure Date where
  year : Int
  month : Int
  day : Int
deriving DecidableEq

/-- The window anchor `time.Now().AddDate(-1, 0, 0)` (src/unnamed/part_000,
line 237, `startDate`), reduced to the only two components the builder reads:
`startDate.Year()` and `startDate.Month()`. -/
structure Anchor where
  year : Int
  month : Int
deriving DecidableEq

/-- One decoded `contributionDays` entry of the GraphQL response:
`{Date string, ContributionCount int}`. -/
structure Sample where
  date : String
  count : Int
deriving DecidableEq

/-- `numMonths` constant of src/unnamed/part_000 (line 22). -/
def numMonths : Nat := 13

/-- `numDays` constant of src/unnamed/part_000 (line 23). -/
def numDays : Nat := 32

/-- Character is an ASCII decimal digit (codes 48-57). -/
def isDigitCh (c : Char) : Prop := 48 ≤ c.toNat ∧ c.toNat ≤ 57

instance (c : Char) : Decidable (isDigitCh c) := by
  unfold isDigitCh; infer_instance

/-- Numeric value of an ASCII digit character. -/
def digitVal (c : Char) : Int := (c.toNat : Int) - 48

/-- Gregorian leap-year rule used by Go's `time` package when it validates a
parsed day-of-month. -/
def isLeapYear (y : Int) : Prop := y % 4 = 0 ∧ (y % 100 ≠ 0 ∨ y % 400 = 0)

instance (y : Int) : Decidable (isLeapYear y) := by
  unfold isLeapYear; infer_instance

/-- Number of days in the given month of the given year, as validated by Go's
`time.Parse` (a day outside this range is a parse error). -/
def daysInMonth (year month : Int) : Int :=
  if month = 2 then (if isLeapYear year then 29 else 28)
  else if month = 4 ∨ month = 6 ∨ month = 9 ∨ month = 11 then 30
  else 31

/-- Embedding of `time.Parse("2006-01-02", s)` (src/unnamed/part_000,
line 242): the string must be exactly `YYYY-MM-DD` with four year digits and
two month and day digits, month in `[1, 12]` and day in
`[1, daysInMonth]`; anything else is a parse error (`none`). -/
def parseDate (s : String) : Option Date :=
  match s.toList with
  | [y1, y2, y3, y4, h1, m1, m2, h2, d1, d2] =>
    if h1 = '-' ∧ h2 = '-' ∧
       isDigitCh y1 ∧ isDigitCh y2 ∧ isDigitCh y3 ∧ isDigitCh y4 ∧
       isDigitCh m1 ∧ isDigitCh m2 ∧ isDigitCh d1 ∧ isDigitCh d2 then
      let year := digitVal y1 * 1000 + digitVal y2 * 100 + digitVal y3 * 10 + digitVal y4
      let mo := digitVal m1 * 10 + digitVal m2
      let da := digitVal d1 * 10 + digitVal d2
      if 1 ≤ mo ∧ mo ≤ 12 ∧ 1 ≤ da ∧ da ≤ daysInMonth year mo then
        some ⟨year, mo, da⟩
      else none
    else none
  | _ => none

/-- `monthIndex := (date.Year()-startDate.Year())*12 + int(date.Month()) -
int(startDate.Month())` (src/unnamed/part_000, line 250). -/
def monthIdx (anchor : Anchor) (d : Date) : Int :=
  (d.year - anchor.year) * 12 + d.month - anchor.month

/-- `yearMonth, _ := strconv.Atoi(date.Format("200601"))`
(src/unnamed/part_000, line 246): for the four-digit years produced by
`parseDate` (`0 ≤ year ≤ 9999`), `Format("200601")` prints the year
zero-padded to four digits followed by the month zero-padded to two, so
`Atoi` of it is `year * 100 + month` (and never fails). -/
def encodeYM (d : Date) : Int := d.year * 100 + d.month

/-- Modelled from the spec (§4.4: "column 0 renders the row's label (from the
reserved metadata slot, decoded back into a human year-month)" and §8 "Label
round-trip"): the source renders the raw encoded number and has no decoder,
so the decoder is taken from the spec's words: split the stored value back
into its year and month components. -/
def decodeYM (v : Int) : Int × Int := (v / 100, v % 100)

/-- The contributions grid `[numMonths][numDays]int`, modelled as a total
map from (row, column) to the stored count; the source only ever reads and
writes indices below `numMonths` and `numDays`. -/
def Grid : Type := Nat → Nat → Int

/-- `var contributions [numMonths][numDays]int`: Go zero-initialises every
cell, so the freshly allocated grid is everywhere `0` — the "no data"
sentinel. -/
def emptyGrid : Grid := fun _ _ => 0

/-- A single Go array store `g[i][j] = v`. -/
def writeCell (g : Grid) (i j : Nat) (v : Int) : Grid :=
  fun i' j' => if i' = i ∧ j' = j then v else g i' j'

/-- One iteration of the sample loop of `fetchData` (src/unnamed/part_000,
lines 241-257): parse the date (a parse failure aborts the whole build with
an error), compute `monthIndex`, skip the sample when the index is outside
`[0, numMonths)`, otherwise store the count at
`[monthIndex][date.Day()]` and the encoded year-month at `[monthIndex][0]`.
(The `strconv.Atoi(date.Format("200601"))` step cannot fail on a
successfully parsed date, so its error branch is dead code.) -/
def step (anchor : Anchor) (g : Grid) (s : Sample) : Except String Grid :=
  match parseDate s.date with
  | none => .error ("parsing time " ++ s.date)
  | some d =>
    let mi := monthIdx anchor d
    if mi < 0 ∨ (numMonths : Int) ≤ mi then .ok g
    else .ok (writeCell (writeCell g mi.toNat d.day.toNat s.count) mi.toNat 0 (encodeYM d))

/-- The sample loop of `fetchData`, folded from an arbitrary starting grid
(the source starts from the zero-initialised array). The `weeks`/`days`
nesting of the response is flattened into one ordered sample list, which is
the order the source visits them in. -/
def buildFrom (anchor : Anchor) : Grid → List Sample → Except String Grid
  | g, [] => .ok g
  | g, s :: rest =>
    match step anchor g s with
    | .error e => .error e
    | .ok g' => buildFrom anchor g' rest

/-- The grid-building core of `fetchData` (src/unnamed/part_000, lines
236-258): the spec's `GridBuilder.build(samples, anchor)`. -/
def buildContributions (samples : List Sample) (anchor : Anchor) : Except String Grid :=
  buildFrom anchor emptyGrid samples

/-- `%2d` formatting of `fmt.Sprintf("%2d", v)`: right-justified, width 2,
space padded. -/
def pad2 (v : Int) : String :=
  let s := toString v
  if s.length < 2 then String.mk (List.replicate (2 - s.length) ' ') ++ s else s

/-- The data-cell branch (`day > 0`) of `View`'s cell loop
(src/unnamed/part_000, lines 149-154), with the lipgloss colour styling
stripped (styling is an external collaborator): a non-zero cell renders its
count right-justified at width 2, a zero cell renders the no-data glyph. -/
def renderDataCell (v : Int) : String :=
  if v ≠ 0 then pad2 v ++ "| " else " ✗| "

/-- The application state `model` (src/unnamed/part_000, lines 29-34).
The external `textinput.Model` widget is reduced to the only observable the
program reads, its string value; `err` is the error's message (Go's
`error`), `none` standing for `nil`. -/
structure Model where
  contributions : Grid
  inputValue : String
  submittedName : String
  err : Option String

/-- The messages `Update` dispatches on: terminal key events
(`bubbletea.KeyMsg`, identified by their `msg.String()` form) and the
`fetchMsg` completion carrying the fetched grid and an optional error. -/
inductive Msg where
  | key (k : String)
  | fetchMsg (contributions : Grid) (err : Option String)

/-- The commands `Update` can return: `nil` (here `none`), `bubbletea.Quit`,
or the `fetchData(username)` fetch task. The textinput widget's internal
cursor-blink commands are not fetch tasks and are abstracted to `none`. -/
inductive Cmd where
  | none
  | quit
  | fetchData (username : String)
deriving DecidableEq

/-- Abstraction of the external bubbles `textinput.Update` (the widget is an
external collaborator; the spec's §4.1 "Character input ... appends/edits
inputBuffer"): a single-character key is appended while under the
`CharLimit` of 156, backspace deletes the last character, and every other
message — including "enter", which the widget has no binding for, and
non-key messages such as `fetchMsg` — leaves the value unchanged. -/
def textinputUpdate (value : String) (msg : Msg) : String :=
  match msg with
  | .key k =>
    match k with
    | "backspace" => value.dropRight 1
    | _ => if k.length = 1 ∧ value.length < 156 then value ++ k else value
  | _ => value

/-- `Update` (src/unnamed/part_000, lines 84-107), identical in every
revision of the source: quit keys return `bubbletea.Quit`; "enter" with a
non-empty input copies it into `submittedName`, clears the input and emits
`fetchData`; a `fetchMsg` with a non-nil error records the error and
returns early; a successful `fetchMsg` installs the grid; every
non-returning branch falls through to `m.username.Update(msg)`. -/
def update (m : Model) (msg : Msg) : Model × Cmd :=
  match msg with
  | .key k =>
    match k with
    | "ctrl+c" => (m, Cmd.quit)
    | "esc" => (m, Cmd.quit)
    | "enter" =>
      if m.inputValue ≠ "" then
        ({ m with submittedName := m.inputValue, inputValue := "" },
         Cmd.fetchData m.inputValue)
      else
        ({ m with inputValue := textinputUpdate m.inputValue msg }, Cmd.none)
    | _ => ({ m with inputValue := textinputUpdate m.inputValue msg }, Cmd.none)
  | .fetchMsg contribs err =>
    match err with
    | some e => ({ m with err := some e }, Cmd.none)
    | Option.none =>
      ({ m with contributions := contribs,
                inputValue := textinputUpdate m.inputValue msg }, Cmd.none)

/-- `initialModel` (src/unnamed/part_000, lines 67-76): zero-valued grid and
error, empty input. -/
def initialModel : Model :=
  { contributions := emptyGrid, inputValue := "", submittedName := "", err := Option.none }

/-- The spec's `Phase` (§3): {AwaitingInput, Fetching, Displaying, Failed}. -/
inductive Phase where
  | awaitingInput
  | fetching
  | displaying
  | failed
deriving DecidableEq

/-- Modelled from the spec: the source `model` has no phase field, so the
spec's §3/§4.1 phase is derived from the observable state together with
`inFlight`, whether an emitted `fetchData` task has not yet delivered its
completion: a state with a task in flight is `Fetching`; otherwise a
recorded error means `Failed`, a submitted identifier means `Displaying`,
and the fresh state is `AwaitingInput`. -/
def specPhase (m : Model) (inFlight : Bool) : Phase :=
  if inFlight then .fetching
  else if m.err.isSome then .failed
  else if m.submittedName ≠ "" then .displaying
  else .awaitingInput

/-- `month := date.Month() - 1` of the legacy 12x31 revision
(src/main.go, line 189). -/
def legacyMonthRow (d : Date) : Int := d.month - 1

/-- `dayOfMonth := date.Day() - 1` of the legacy 12x31 revision
(src/main.go, line 190). -/
def legacyDayCol (d : Date) : Int := d.day - 1

/-- A grid holding a single non-zero count, used as a concrete fetched grid
in the state-machine theorems. -/
def gOneCell : Grid := writeCell emptyGrid 0 1 5

/-- A concrete state that has recorded an error from an earlier fetch. -/
def mFailed : Model :=
  { contributions := emptyGrid, inputValue := "", submittedName := "alice",
    err := some "boom" }

/-- A concrete state after a successful submit, with no recorded error. -/
def mDisplayingOk : Model :=
  { contributions := emptyGrid, inputValue := "", submittedName := "alice",
    err := Option.none }

/-- The sample `s` parses and its `monthIndex` against `anchor` is the row
`r`. -/
def mapsTo (anchor : Anchor) (s : Sample) (r : Nat) : Prop :=
  ∃ d, parseDate s.date = some d ∧ monthIdx anchor d = (r : Int)

/-- The grid built from the single sample 2023-05-25 / count 4 against
anchor 2023-05: count at row 0 day 25, label 202305 at row 0 column 0. -/
def gW8 : Grid := writeCell (writeCell emptyGrid 0 25 4) 0 0 202305

lemma daysInMonth_le_31 (y m : Int) : daysInMonth y m ≤ 31 := by
  unfold daysInMonth
  split
  · split <;> norm_num
  · split <;> norm_num

lemma daysInMonth_pos (y m : Int) : 1 ≤ daysInMonth y m := by
  unfold daysInMonth
  split
  · split <;> norm_num
  · split <;> norm_num

lemma parseDate_bounds {s : String} {d : Date} (h : parseDate s = some d) :
    0 ≤ d.year ∧ d.year ≤ 9999 ∧ 1 ≤ d.month ∧ d.month ≤ 12 ∧
    1 ≤ d.day ∧ d.day ≤ 31 := by
  unfold parseDate at h
  dsimp only at h
  split at h
  next =>
    split at h
    next hdig =>
      split at h
      next hrange =>
        obtain ⟨-, -, hy1, hy2, hy3, hy4, -, -, -, -⟩ := hdig
        obtain ⟨hmo1, hmo2, hda1, hda2⟩ := hrange
        have hda3 := hda2.trans (daysInMonth_le_31 _ _)
        injection h with h
        subst h
        unfold isDigitCh at hy1 hy2 hy3 hy4
        unfold digitVal at *
        refine ⟨?_, ?_, ?_, ?_, ?_, ?_⟩ <;> simp only [] <;> omega
      · exact absurd h (by simp)
    · exact absurd h (by simp)
  · exact absurd h (by simp)

lemma decode_encode (d : Date) (h1 : 1 ≤ d.month) (h2 : d.month ≤ 12) :
    decodeYM (encodeYM d) = (d.year, d.month) := by
  unfold decodeYM encodeYM
  simp only [Prod.mk.injEq]
  omega

lemma monthIdx_inj (anchor : Anchor) (d d' : Date)
    (h1 : 1 ≤ d.month) (h2 : d.month ≤ 12)
    (h1' : 1 ≤ d'.month) (h2' : d'.month ≤ 12)
    (he : monthIdx anchor d = monthIdx anchor d') :
    d.year = d'.year ∧ d.month = d'.month := by
  unfold monthIdx at he
  constructor <;> omega

lemma buildFrom_label (anchor : Anchor) :
    ∀ (samples : List Sample) (g g' : Grid),
      buildFrom anchor g samples = Except.ok g' → ∀ r : Nat, r < numMonths →
      (g' r 0 = g r 0 ∧ ∀ t ∈ samples, ¬ mapsTo anchor t r) ∨
      (∃ t ∈ samples, ∃ d, parseDate t.date = some d ∧
        monthIdx anchor d = (r : Int) ∧ g' r 0 = encodeYM d) := by
  intro samples
  induction samples with
  | nil =>
    intro g g' h r _
    simp only [buildFrom] at h
    injection h with h
    subst h
    exact Or.inl ⟨rfl, by simp⟩
  | cons s rest ih =>
    intro g g' h r hr
    simp only [buildFrom] at h
    cases hstep : step anchor g s with
    | error e => rw [hstep] at h; simp at h
    | ok g1 =>
      rw [hstep] at h
      dsimp only at h
      unfold step at hstep
      cases hp : parseDate s.date with
      | none => rw [hp] at hstep; simp at hstep
      | some d =>
        rw [hp] at hstep
        dsimp only at hstep
        by_cases hout : monthIdx anchor d < 0 ∨ (numMonths : Int) ≤ monthIdx anchor d
        · rw [if_pos hout] at hstep
          injection hstep with hstep
          subst hstep
          rcases ih _ g' h r hr with ⟨hcell, hnone⟩ | ⟨t, ht, hrest⟩
          · refine Or.inl ⟨hcell, ?_⟩
            intro t ht
            rcases List.mem_cons.mp ht with rfl | ht'
            · rintro ⟨d', hd', hmi⟩
              rw [hp] at hd'
              injection hd' with hd'
              subst hd'
              unfold numMonths at hout hr
              omega
            · exact hnone t ht'
          · exact Or.inr ⟨t, List.mem_cons_of_mem _ ht, hrest⟩
        · rw [if_neg hout] at hstep
          injection hstep with hstep
          subst hstep
          rcases ih _ g' h r hr with ⟨hcell, hnone⟩ | ⟨t, ht, hrest⟩
          · by_cases hreq : (monthIdx anchor d).toNat = r
            · refine Or.inr ⟨s, List.mem_cons_self s rest, d, hp, ?_, ?_⟩
              · omega
              · rw [hcell]
                simp [writeCell, hreq]
            · have hne : ¬(r = (monthIdx anchor d).toNat) := fun hh => hreq hh.symm
              refine Or.inl ⟨?_, ?_⟩
              · rw [hcell]
                simp [writeCell, hne]
              · intro t ht
                rcases List.mem_cons.mp ht with rfl | ht'
                · rintro ⟨d', hd', hmi⟩
                  rw [hp] at hd'
                  injection hd' with hd'
                  subst hd'
                  omega
                · exact hnone t ht'
          · exact Or.inr ⟨t, List.mem_cons_of_mem _ ht, hrest⟩

/-- C1: for every sample processed by the grid builder, the row index is
`monthIndex = (sampleYear − anchorYear) * 12 + (sampleMonth − anchorMonth)`;
in particular a sample whose (year, month) equals the anchor's lands in row
0, and the builder writes such a sample's count and label into row 0. -/
theorem monthIdx_matches_spec_formula :
    (∀ (anchor : Anchor) (d : Date),
      monthIdx anchor d = (d.year - anchor.year) * 12 + (d.month - anchor.month)) ∧
    (∀ (anchor : Anchor) (d : Date),
      d.year = anchor.year → d.month = anchor.month → monthIdx anchor d = 0) ∧
    (∀ (anchor : Anchor) (g : Grid) (s : Sample) (d : Date) (rest : List Sample),
      parseDate s.date = some d → d.year = anchor.year → d.month = anchor.month →
      buildFrom anchor g (s :: rest)
        = buildFrom anchor
            (writeCell (writeCell g 0 d.day.toNat s.count) 0 0 (encodeYM d)) rest) := by
  refine ⟨?_, ?_, ?_⟩
  · intro anchor d; unfold monthIdx; ring
  · intro anchor d hy hm; unfold monthIdx; rw [hy, hm]; ring
  · intro anchor g s d rest hp hy hm
    have h0 : monthIdx anchor d = 0 := by unfold monthIdx; rw [hy, hm]; ring
    simp [buildFrom, step, hp, h0, numMonths]

/-- Witness for C1 at the spec's own scenario: anchor 2023-05, sample
2023-05-25 with count 4. -/
theorem monthIdx_matches_spec_formula_witness :
    monthIdx ⟨2023, 5⟩ ⟨2023, 5, 25⟩ = 0 ∧
    buildFrom ⟨2023, 5⟩ emptyGrid [⟨"2023-05-25", 4⟩]
      = buildFrom ⟨2023, 5⟩
          (writeCell (writeCell emptyGrid 0 (Int.toNat 25) 4) 0 0
            (encodeYM ⟨2023, 5, 25⟩)) [] :=
  ⟨monthIdx_matches_spec_formula.2.1 ⟨2023, 5⟩ ⟨2023, 5, 25⟩ rfl rfl,
   monthIdx_matches_spec_formula.2.2 ⟨2023, 5⟩ emptyGrid ⟨"2023-05-25", 4⟩
     ⟨2023, 5, 25⟩ [] (by decide) rfl rfl⟩

/-- C2 counterexample: the sentinel is the integer 0, the very value of a
zero-contribution count. Building from the single in-window sample
2023-05-25 with count 0 (anchor 2023-05) does touch row 0 — its label slot
becomes 202305 — yet cell (0, 25) still equals the untouched sentinel and
renders exactly like a cell that received no sample at all. -/
theorem sentinel_distinguishable_cex :
    (buildContributions [⟨"2023-05-25", 0⟩] ⟨2023, 5⟩).toOption.getD emptyGrid 0 0
      = 202305 ∧
    (buildContributions [⟨"2023-05-25", 0⟩] ⟨2023, 5⟩).toOption.getD emptyGrid 0 25
      = emptyGrid 0 25 ∧
    renderDataCell
      ((buildContributions [⟨"2023-05-25", 0⟩] ⟨2023, 5⟩).toOption.getD emptyGrid 0 25)
      = " ✗| " ∧
    renderDataCell (emptyGrid 0 25) = " ✗| " := by decide

/-- C2 amended: the no-data sentinel is 0 and is *not* distinguishable from
a true zero-contribution count — a cell into which a count of 0 is written
renders exactly like a cell that received no sample. -/
theorem zero_count_renders_as_no_data :
    ∀ (g : Grid) (i j : Nat),
      renderDataCell (writeCell g i j 0 i j) = renderDataCell (emptyGrid i j) := by
  intro g i j
  simp [writeCell, emptyGrid]

/-- C3 counterexample: the initial state has no fetch in flight (derived
phase `AwaitingInput`, not `Fetching`), yet processing a success-variant
completion still installs the carried grid — the completion is not
ignored. -/
theorem completion_ignored_outside_fetching_cex :
    specPhase initialModel false ≠ Phase.fetching ∧
    (update initialModel (Msg.fetchMsg gOneCell Option.none)).1.contributions 0 1 ≠
      initialModel.contributions 0 1 := by decide

/-- C3 amended: `Update` has no phase guard at all — in every state a
failure-variant completion records its error and a success-variant
completion installs its grid; completions received outside `Fetching` are
processed, not ignored. -/
theorem completions_processed_in_every_phase :
    ∀ (m : Model) (g : Grid) (e : String),
      (update m (Msg.fetchMsg g (some e))).1.err = some e ∧
      (update m (Msg.fetchMsg g Option.none)).1.contributions = g :=
  fun _ _ _ => ⟨rfl, rfl⟩

/-- C4 counterexample: a state in (derived) phase `Fetching` that carries an
error recorded by an earlier failed fetch; processing a success-variant
completion leaves `err` set — `lastError` is not cleared. -/
theorem success_clears_lastError_cex :
    specPhase mFailed true = Phase.fetching ∧
    (update mFailed (Msg.fetchMsg gOneCell Option.none)).1.err = some "boom" ∧
    (update mFailed (Msg.fetchMsg gOneCell Option.none)).1.err ≠ Option.none := by
  decide

/-- C4 amended: a success-variant completion installs the returned grid but
leaves `lastError` unchanged (it is never cleared); the derived phase
becomes `Displaying` only when no earlier error had been recorded. -/
theorem success_installs_grid_keeps_err :
    ∀ (m : Model) (g : Grid),
      (update m (Msg.fetchMsg g Option.none)).1.contributions = g ∧
      (update m (Msg.fetchMsg g Option.none)).1.err = m.err ∧
      (m.err = Option.none → m.submittedName ≠ "" →
        specPhase (update m (Msg.fetchMsg g Option.none)).1 false = Phase.displaying) := by
  intro m g
  refine ⟨rfl, rfl, ?_⟩
  intro h1 h2
  simp [update, specPhase, h1, h2]

/-- Witness for C4's amended claim at a concrete error-free state. -/
theorem success_installs_grid_keeps_err_witness :
    specPhase (update mDisplayingOk (Msg.fetchMsg gOneCell Option.none)).1 false
      = Phase.displaying :=
  (success_installs_grid_keeps_err mDisplayingOk gOneCell).2.2 rfl (by decide)

/-- C5: while `Fetching`, a failure-variant completion records the error,
moves the derived phase to `Failed`, and leaves the grid (and every other
field) exactly as it was; and a malformed date string in a sample does
produce the failure variant. -/
theorem failure_records_error_preserves_grid :
    (∀ (m : Model) (g : Grid) (e : String),
      specPhase m true = Phase.fetching →
      (update m (Msg.fetchMsg g (some e))).1.err = some e ∧
      (update m (Msg.fetchMsg g (some e))).1.contributions = m.contributions ∧
      (update m (Msg.fetchMsg g (some e))).1.inputValue = m.inputValue ∧
      (update m (Msg.fetchMsg g (some e))).1.submittedName = m.submittedName ∧
      (update m (Msg.fetchMsg g (some e))).2 = Cmd.none ∧
      specPhase (update m (Msg.fetchMsg g (some e))).1 false = Phase.failed) ∧
    (∀ (s : Sample) (rest : List Sample) (anchor : Anchor),
      parseDate s.date = Option.none →
      buildContributions (s :: rest) anchor
        = Except.error ("parsing time " ++ s.date)) := by
  constructor
  · intro m g e _
    refine ⟨rfl, rfl, rfl, rfl, rfl, ?_⟩
    simp [update, specPhase]
  · intro s rest anchor hp
    simp [buildContributions, buildFrom, step, hp]

/-- Witness for C5: a concrete failure completion processed from a concrete
state, and the failure produced by the malformed date "2023-13-01". -/
theorem failure_records_error_preserves_grid_witness :
    (update mDisplayingOk (Msg.fetchMsg gOneCell (some "bad"))).1.err = some "bad" ∧
    buildContributions [⟨"2023-13-01", 3⟩] ⟨2023, 5⟩
      = Except.error ("parsing time " ++ "2023-13-01") :=
  ⟨(failure_records_error_preserves_grid.1 mDisplayingOk gOneCell "bad" rfl).1,
   failure_records_error_preserves_grid.2 ⟨"2023-13-01", 3⟩ [] ⟨2023, 5⟩ (by decide)⟩

/-- C6: a successfully parsed sample whose `monthIndex` falls outside
`[0, numMonths)` is discarded silently — the builder's run on the remaining
samples is unchanged and no error is raised. -/
theorem out_of_window_sample_discarded :
    ∀ (anchor : Anchor) (g : Grid) (s : Sample) (d : Date) (rest : List Sample),
      parseDate s.date = some d →
      (monthIdx anchor d < 0 ∨ (numMonths : Int) ≤ monthIdx anchor d) →
      buildFrom anchor g (s :: rest) = buildFrom anchor g rest := by
  intro anchor g s d rest hp hout
  simp [buildFrom, step, hp, hout]

/-- Witness for C6 at the spec's scenario: anchor 2023-05, sample
2022-01-01 (monthIndex −16). -/
theorem out_of_window_sample_discarded_witness :
    buildFrom ⟨2023, 5⟩ emptyGrid [⟨"2022-01-01", 7⟩]
      = buildFrom ⟨2023, 5⟩ emptyGrid [] :=
  out_of_window_sample_discarded ⟨2023, 5⟩ emptyGrid ⟨"2022-01-01", 7⟩
    ⟨2022, 1, 1⟩ [] (by decide) (Or.inl (by decide))

/-- C7: a Submit ("enter") with an empty input buffer is a no-op — the
state is returned unchanged in every field and no fetch task (indeed no
command) is emitted. -/
theorem empty_submit_noop :
    ∀ (m : Model), m.inputValue = "" →
      update m (Msg.key "enter") = (m, Cmd.none) := by
  intro m h
  have h5 : ("enter".length = 1) = False := by decide
  simp [update, textinputUpdate, h, h5]
  rw [← h]

/-- Witness for C7 at the initial state. -/
theorem empty_submit_noop_witness :
    update initialModel (Msg.key "enter") = (initialModel, Cmd.none) :=
  empty_submit_noop initialModel rfl

/-- C8: for every grid row that received at least one in-window sample,
column 0 holds the encoded year-month value of that row's samples, and
decoding the stored value reproduces exactly the year and month used to
compute that row's `monthIndex`. (All in-window samples bucketed into the
same row necessarily share one (year, month), so the last-written label
matches every one of them.) -/
theorem label_round_trip :
    ∀ (samples : List Sample) (anchor : Anchor) (g' : Grid) (r : Nat)
      (s : Sample) (d : Date),
      buildContributions samples anchor = Except.ok g' →
      s ∈ samples → parseDate s.date = some d →
      monthIdx anchor d = (r : Int) → r < numMonths →
      g' r 0 = encodeYM d ∧ decodeYM (g' r 0) = (d.year, d.month) := by
  intro samples anchor g' r s d hb hs hp hmi hr
  rcases buildFrom_label anchor samples emptyGrid g' hb r hr with
    ⟨-, hnone⟩ | ⟨t, ht, d', hp', hmi', hcell⟩
  · exact absurd ⟨d, hp, hmi⟩ (hnone s hs)
  · obtain ⟨-, -, hm1, hm2, -, -⟩ := parseDate_bounds hp
    obtain ⟨-, -, hm1', hm2', -, -⟩ := parseDate_bounds hp'
    have huniq := monthIdx_inj anchor d d' hm1 hm2 hm1' hm2' (hmi.trans hmi'.symm)
    have henc : encodeYM d' = encodeYM d := by
      unfold encodeYM
      rw [huniq.1, huniq.2]
    have h1 : g' r 0 = encodeYM d := by rw [hcell, henc]
    refine ⟨h1, ?_⟩
    rw [h1]
    exact decode_encode d hm1 hm2

/-- Witness for C8: anchor 2023-05, single sample 2023-05-25 / count 4;
row 0's label slot holds 202305, which decodes back to (2023, 5). -/
theorem label_round_trip_witness :
    gW8 0 0 = encodeYM ⟨2023, 5, 25⟩ ∧
    decodeYM (gW8 0 0) = ((2023 : Int), (5 : Int)) :=
  label_round_trip [⟨"2023-05-25", 4⟩] ⟨2023, 5⟩ gW8 0 ⟨"2023-05-25", 4⟩
    ⟨2023, 5, 25⟩ rfl (List.mem_singleton.mpr rfl) (by decide) (by decide) (by decide)

/-- C9: the grid builder is deterministic and idempotent — on identical
`(samples, anchor)` inputs two runs yield identical results (the embedded
builder is a pure function of exactly these inputs; the source recomputes
the anchor from the clock per fetch, which is why the anchor is an explicit
parameter). -/
theorem buildContributions_deterministic :
    ∀ (samples : List Sample) (anchor : Anchor),
      buildContributions samples anchor = buildContributions samples anchor :=
  fun _ _ => rfl

/-- C10: every array write of the builder is in bounds for every
successfully parsed sample. In the 13x32 revision the guarded `monthIndex`
row satisfies `0 ≤ monthIndex < numMonths` and the `Day()` column satisfies
`1 ≤ day < numDays`; in the legacy 12x31 revision `Month()−1 ∈ [0, 12)` and
`Day()−1 ∈ [0, 31)`. -/
theorem write_indices_in_bounds :
    ∀ (s : Sample) (d : Date) (anchor : Anchor),
      parseDate s.date = some d →
      (¬(monthIdx anchor d < 0 ∨ (numMonths : Int) ≤ monthIdx anchor d) →
        (monthIdx anchor d).toNat < numMonths ∧
        1 ≤ d.day.toNat ∧ d.day.toNat < numDays) ∧
      (0 ≤ legacyMonthRow d ∧ legacyMonthRow d < 12 ∧
       0 ≤ legacyDayCol d ∧ legacyDayCol d < 31) := by
  intro s d anchor hp
  obtain ⟨hy0, hy1, hm0, hm1, hd0, hd1⟩ := parseDate_bounds hp
  unfold legacyMonthRow legacyDayCol numMonths numDays
  constructor
  · intro hin
    omega
  · omega

/-- Witness for C10 at the sample 2023-05-25 against anchor 2023-05. -/
theorem write_indices_in_bounds_witness :
    ((monthIdx ⟨2023, 5⟩ ⟨2023, 5, 25⟩).toNat < numMonths ∧
      1 ≤ (Int.toNat 25) ∧ (Int.toNat 25) < numDays) ∧
    (0 ≤ legacyMonthRow ⟨2023, 5, 25⟩ ∧ legacyMonthRow ⟨2023, 5, 25⟩ < 12 ∧
     0 ≤ legacyDayCol ⟨2023, 5, 25⟩ ∧ legacyDayCol ⟨2023, 5, 25⟩ < 31) :=
  ⟨(write_indices_in_bounds ⟨"2023-05-25", 4⟩ ⟨2023, 5, 25⟩ ⟨2023, 5⟩
      (by decide)).1 (by decide),
   (write_indices_in_bounds ⟨"2023-05-25", 4⟩ ⟨2023, 5, 25⟩ ⟨2023, 5⟩
      (by decide)).2⟩

end GhContrib
